import Mathlib

/-!
Verification of the query/reporting core of the Food Wastage Management
dashboard (src/streamlit_app.py).  The definitions below are a shallow
embedding of the data-access helpers, the claims-page join logic, the
CRUD forms and the analytical reports of that file; machine state
(database tables, the memo cache of query results) is passed explicitly.
-/

namespace FoodWastage

/-! Tabular values and dataframes, for the claims page (show_claims). -/

/-- Cell values of a tabular query result: SQL NULL, an integer, or a
string. -/
inductive Val where
  | vnull : Val
  | vint : Int → Val
  | vstr : String → Val
  deriving DecidableEq

/-- A pandas-style dataframe: named columns plus rows of cell values, the
value at position j of a row belonging to column j. -/
structure DFrame where
  cols : List String
  rows : List (List Val)
  deriving DecidableEq

/-- Value of column c in one row, by positional lookup against the column
list (NULL when the column is absent). -/
def colVal : List String → List Val → String → Val
  | [], _, _ => .vnull
  | _ :: _, [], _ => .vnull
  | c0 :: cs, v :: vs, c => if c0 = c then v else colVal cs vs c

/-- Column selection df[cs], as in receivers[receiver_cols]
(streamlit_app.py line 338). -/
def selectCols (df : DFrame) (cs : List String) : DFrame :=
  ⟨cs, df.rows.map fun r => cs.map (colVal df.cols r)⟩

/-- pandas left merge on one key column present in both frames: each left
row is paired with every right row holding the same key value, or padded
with NULLs when none matches; the key column is kept once.  In show_claims
the non-key columns of the merged frames never share a name, so the pandas
suffix renaming does not arise. -/
def mergeLeft (df1 df2 : DFrame) (key : String) : DFrame :=
  let rcols := df2.cols.filter fun c => decide (c ≠ key)
  ⟨df1.cols ++ rcols,
    df1.rows.flatMap fun r =>
      let kv := colVal df1.cols r key
      match df2.rows.filter (fun r2 => decide (colVal df2.cols r2 key = kv)) with
      | [] => [r ++ rcols.map fun _ => Val.vnull]
      | m :: ms => (m :: ms).map fun r2 => r ++ rcols.map (colVal df2.cols r2)⟩

/-- Lines 319-326 of show_claims: when Food_ID is a column of both claims
and food listings, merge the claims with the available detail columns of
the listings. -/
def foodMergeStep (claims food : DFrame) : DFrame :=
  if "Food_ID" ∈ claims.cols ∧ "Food_ID" ∈ food.cols then
    let avail := ["Food_ID", "Food_Name", "Location", "Food_Type"].filter
      fun c => decide (c ∈ food.cols)
    if avail.isEmpty then claims
    else mergeLeft claims (selectCols food avail) "Food_ID"
  else claims

/-- Lines 329-335: resolution of the receiver join key, trying
Receiver_ID, then ReceiverID, then ReceiverId, each required to be a
column of both the claims and the receivers table. -/
def resolveReceiverKey (claimsCols receiversCols : List String) : Option String :=
  if "Receiver_ID" ∈ claimsCols ∧ "Receiver_ID" ∈ receiversCols then some "Receiver_ID"
  else if "ReceiverID" ∈ claimsCols ∧ "ReceiverID" ∈ receiversCols then some "ReceiverID"
  else if "ReceiverId" ∈ claimsCols ∧ "ReceiverId" ∈ receiversCols then some "ReceiverId"
  else none

/-- Whether the character list hay starts with the character list needle. -/
def strLeads : List Char → List Char → Bool
  | [], _ => true
  | _ :: _, [] => false
  | a :: as, b :: bs => a == b && strLeads as bs

/-- Python str.endswith on character lists: s ends with suf. -/
def strEnds (suf s : List Char) : Bool :=
  strLeads suf.reverse s.reverse

/-- The test col.endswith("_ID") of line 346. -/
def endsWithID (c : String) : Bool :=
  strEnds "_ID".toList c.toList

/-- Lines 345-353: the fallback search, taken when no named key resolved:
the first claims column (in claims column order) that is also a receivers
column and ends in _ID. -/
def fallbackKey (claimsCols receiversCols : List String) : Option String :=
  claimsCols.find? fun c => decide (c ∈ receiversCols) && endsWithID c

/-- Outcome of the claims page: the no-data warning, a rendered dataframe,
or the except branch that reports the error and shows the raw claims rows
(lines 357-360). -/
inductive ClaimsView where
  | noData : ClaimsView
  | table : DFrame → ClaimsView
  | rawFallback : DFrame → ClaimsView
  deriving DecidableEq

/-- Body of the try block of show_claims (lines 310-355).  When a named
key resolves, the receivers frame is restricted to the key and Name
columns and left merged on that key.  When only the fallback column is
found, the code calls pandas merge with left_on but with neither right_on
nor right_index=True (lines 347-352), which makes pandas raise MergeError;
that library behaviour is embedded as the error case here. -/
def showClaimsBody (claims food receivers : DFrame) : Except String DFrame :=
  let cwd := foodMergeStep claims food
  match resolveReceiverKey claims.cols receivers.cols with
  | some k =>
    let rcols := if "Name" ∈ receivers.cols then [k, "Name"] else [k]
    .ok (mergeLeft cwd (selectCols receivers rcols) k)
  | none =>
    match fallbackKey claims.cols receivers.cols with
    | some _ => .error "MergeError: Must pass right_on or right_index=True"
    | none => .ok cwd

/-- show_claims (lines 302-360): the empty-table guard, then the try
block; an exception inside the block is caught and the raw claims frame is
shown together with an error banner. -/
def show_claims (claims food receivers : DFrame) : ClaimsView :=
  if claims.rows = [] ∨ food.rows = [] ∨ receivers.rows = [] then .noData
  else
    match showClaimsBody claims food receivers with
    | .ok df => .table df
    | .error _ => .rawFallback claims

/-! The relational data model (spec section 3, tables of the database). -/

/-- A row of the Providers table. -/
structure Provider where
  provider_id : Int
  name : String
  ptype : String
  address : String
  city : String
  contact : String
  deriving DecidableEq

/-- A row of the Receivers table. -/
structure Receiver where
  receiver_id : Int
  name : String
  rtype : String
  city : String
  contact : String
  deriving DecidableEq

/-- A row of the Food_Listings_Dataset table. -/
structure FoodListing where
  food_id : Int
  food_name : String
  quantity : Int
  expiry_date : String
  provider_id : Int
  provider_type : String
  location : String
  food_type : String
  meal_type : String
  deriving DecidableEq

/-- A row of the Claims table. -/
structure Claim where
  claim_id : Int
  food_id : Int
  receiver_id : Int
  status : String
  deriving DecidableEq

/-- The database: the four tables of the food-donation schema. -/
structure DB where
  providers : List Provider
  receivers : List Receiver
  listings : List FoodListing
  claims : List Claim
  deriving DecidableEq

/-! Data access layer (lines 112-129). -/

/-- Outcome of running a mutating statement on the live database: the
commit succeeds, or the driver raises (malformed SQL, constraint
violation, lost connection mid-call, ...). -/
inductive ExecOutcome where
  | success : ExecOutcome
  | raises : String → ExecOutcome
  deriving DecidableEq

/-- execute_query (lines 119-129).  The body has no try/except: with a
live connection the cursor is executed and committed, and a driver
exception propagates to the caller; only the missing-connection case
returns False. -/
def execute_query (conn : Option Unit) (outcome : ExecOutcome) : Except String Bool :=
  match conn with
  | some _ =>
    match outcome with
    | .success => .ok true
    | .raises m => .error m
  | none => .ok false

/-- The st.cache_data memoization of load_data (line 112): query results
are cached by query text for the process lifetime; the first call computes
and stores the result, later calls with the same key return the stored
value unchanged. -/
def load_data_memo {α : Type} (compute : Unit → α) (key : String)
    (cache : List (String × α)) : α × List (String × α) :=
  match cache.lookup key with
  | some v => (v, cache)
  | none =>
    let v := compute ()
    (v, (key, v) :: cache)

/-! CRUD orchestrator (lines 414-516). -/

/-- The fields collected by the Providers create and update forms. -/
structure ProviderFields where
  name : String
  ptype : String
  address : String
  city : String
  contact : String
  deriving DecidableEq

/-- The fields collected by the Receivers create form. -/
structure ReceiverFields where
  name : String
  rtype : String
  city : String
  contact : String
  deriving DecidableEq

/-- show_create_form (lines 430-461).  The function has form branches only
for Providers and Receivers; choosing Food_Listings_Dataset or Claims
renders nothing and performs no insert.  The identity value is assigned by
the database and passed here as newId; the submitted fields are the insert
parameters of lines 444 and 458. -/
def show_create_form (table : String) (db : DB) (newId : Int)
    (pf : ProviderFields) (rf : ReceiverFields) : DB :=
  if table = "Providers" then
    ⟨db.providers ++ [⟨newId, pf.name, pf.ptype, pf.address, pf.city, pf.contact⟩],
      db.receivers, db.listings, db.claims⟩
  else if table = "Receivers" then
    ⟨db.providers,
      db.receivers ++ [⟨newId, rf.name, rf.rtype, rf.city, rf.contact⟩],
      db.listings, db.claims⟩
  else db

/-- Result rows of SELECT * FROM one of the four tables. -/
inductive TableData where
  | providerRows : List Provider → TableData
  | receiverRows : List Receiver → TableData
  | listingRows : List FoodListing → TableData
  | claimRows : List Claim → TableData
  deriving DecidableEq

/-- The pure read SELECT * FROM table behind show_read_table (line 466);
the table argument ranges over the four names of the selectbox of
line 419. -/
def selectAll (table : String) (db : DB) : TableData :=
  if table = "Providers" then .providerRows db.providers
  else if table = "Receivers" then .receiverRows db.receivers
  else if table = "Food_Listings_Dataset" then .listingRows db.listings
  else .claimRows db.claims

/-- show_read_table (lines 463-467): the read goes through load_data and
hence through the memo cache, keyed by the literal query text. -/
def show_read_table (table : String) (db : DB)
    (cache : List (String × TableData)) : TableData × List (String × TableData) :=
  load_data_memo (fun _ => selectAll table db) ("SELECT * FROM " ++ table) cache

/-- The SQL UPDATE of line 494 applied to one provider row: rows whose
Provider_ID equals the selected value receive the submitted field values,
other rows are returned unchanged. -/
def updateProviderRow (selId : Int) (uf : ProviderFields) (p : Provider) : Provider :=
  if p.provider_id = selId then
    ⟨p.provider_id, uf.name, uf.ptype, uf.address, uf.city, uf.contact⟩
  else p

/-- show_update_form (lines 469-497).  Only the Providers branch has form
fields and a submit button; for the three other tables the form renders
empty and the database is never written. -/
def show_update_form (table : String) (db : DB) (selId : Int) (uf : ProviderFields) : DB :=
  if table = "Providers" then
    ⟨db.providers.map (updateProviderRow selId uf), db.receivers, db.listings, db.claims⟩
  else db

/-! Reporting catalog (show_queries, lines 518-680). -/

/-- Insertion step of the ascending ORDER BY over city names. -/
def insertAsc (c : String) : List String → List String
  | [] => [c]
  | x :: xs => if c ≤ x then c :: x :: xs else x :: insertAsc c xs

/-- ORDER BY City ascending (stable insertion sort). -/
def sortAsc : List String → List String
  | [] => []
  | x :: xs => insertAsc x (sortAsc xs)

/-- Query 1 (lines 522-535): per city, COUNT(DISTINCT Provider_ID) and
COUNT(DISTINCT Receiver_ID) over the union of the two tables, ordered by
city name ascending.  COUNT DISTINCT ignores the NULL halves introduced by
the union, so the two counts come from the respective tables directly. -/
def report1 (ps : List Provider) (rs : List Receiver) : List (String × Nat × Nat) :=
  let cities := sortAsc ((ps.map Provider.city) ++ (rs.map Receiver.city)).dedup
  cities.map fun c =>
    (c,
      ((ps.filter fun p => decide (p.city = c)).map Provider.provider_id).dedup.length,
      ((rs.filter fun r => decide (r.city = c)).map Receiver.receiver_id).dedup.length)

/-- Running report 1 twice inside one session against an unchanged
database: the first run populates the memo cache, the second run is served
from it. -/
def runReport1Twice (ps : List Provider) (rs : List Receiver) :
    List (String × Nat × Nat) × List (String × Nat × Nat) :=
  let first := load_data_memo (fun _ => report1 ps rs) "query1" []
  let second := load_data_memo (fun _ => report1 ps rs) "query1" first.2
  (first.1, second.1)

/-- Query 5 (lines 574-577): SELECT SUM(Quantity) FROM
Food_Listings_Dataset.  SQL SUM over the empty set is NULL, embedded as
none; otherwise the quantities are accumulated. -/
def report5 (fs : List FoodListing) : Option Int :=
  match fs with
  | [] => none
  | _ :: _ => some (fs.foldl (fun acc f => acc + f.quantity) 0)

/-- SQL Server ROUND(x, 2) on the nonnegative rationals produced by query
10: rounding half away from zero at the second decimal place, which on
nonnegative input is rounding half up. -/
def round2 (q : ℚ) : ℚ := (round (q * 100) : ℤ) / 100

/-- Query 10 (lines 621-628): per-status claim count and the percentage of
all claims, rounded to 2 decimals; GROUP BY Status yields one row per
distinct status value. -/
def report10 (cs : List Claim) : List (String × Nat × ℚ) :=
  let statuses := (cs.map Claim.status).dedup
  statuses.map fun s =>
    let c := (cs.map Claim.status).count s
    (s, c, round2 ((c : ℚ) * 100 / (cs.length : ℚ)))

/-- Whether needle occurs as a contiguous substring of hay. -/
def strHas (needle : List Char) : List Char → Bool
  | [] => strLeads needle []
  | c :: cs => strLeads needle (c :: cs) || strHas needle cs

/-- The Python membership test needle in str(columnName) of line 678. -/
def nameContains (needle s : String) : Bool :=
  strHas needle.toList s.toList

/-- Chart decision of the queries page (lines 673-680): an empty result is
not rendered at all; a bar chart is drawn exactly when the result has at
least two columns, more than one row, and the name of its last column
contains Total or Count. -/
def showsBarChart (cols : List String) (nrows : Nat) : Bool :=
  if nrows = 0 then false
  else if 2 ≤ cols.length ∧ 1 < nrows then
    nameContains "Total" (cols.getLastD "") || nameContains "Count" (cols.getLastD "")
  else false

/-! Concrete fixtures used by counterexamples and witnesses. -/

/-- The empty database. -/
def dbEmpty : DB := ⟨[], [], [], []⟩

/-- Provider fields submitted in the examples. -/
def pfA : ProviderFields := ⟨"Alice Deli", "Restaurant", "1 Main St", "Adambury", "555-0100"⟩

/-- Receiver fields submitted in the examples. -/
def rfA : ReceiverFields := ⟨"Bea Shelter", "Charity", "Adambury", "555-0101"⟩

/-- New provider field values used by the update examples. -/
def ufNew : ProviderFields := ⟨"New Name", "Supermarket", "2 Oak Ave", "Brighton", "555-0200"⟩

/-- A database holding one receiver row, for the update counterexample. -/
def dbR : DB := ⟨[], [⟨1, "Old Name", "Charity", "Adambury", "555-0300"⟩], [], []⟩

/-- A database with two providers, for the update frame witness. -/
def dbP : DB :=
  ⟨[⟨1, "Old Name", "Restaurant", "3 Elm St", "Adambury", "555-0400"⟩,
    ⟨2, "Keep Name", "Grocery Store", "4 Pine St", "Brighton", "555-0401"⟩],
   [], [], []⟩

/-- The listing fixture of spec section 8 with quantities 10, 5 and 20. -/
def fixtureListings : List FoodListing :=
  [⟨1, "Rice", 10, "2025-01-01", 1, "Restaurant", "Adambury", "Vegetarian", "Lunch"⟩,
   ⟨2, "Bread", 5, "2025-01-02", 1, "Restaurant", "Adambury", "Vegetarian", "Snack"⟩,
   ⟨3, "Soup", 20, "2025-01-03", 2, "Supermarket", "Brighton", "Vegetarian", "Dinner"⟩]

/-- A small non-empty claims fixture with two distinct status values. -/
def fixtureClaims : List Claim :=
  [⟨1, 1, 1, "Completed"⟩, ⟨2, 2, 1, "Pending"⟩, ⟨3, 3, 2, "Completed"⟩]

/-- Claims frame whose receiver column is named Rcv_ID, so that no named
key resolves and only the fallback matches. -/
def claimsFixC1 : DFrame :=
  ⟨["Claim_ID", "Food_ID", "Rcv_ID", "Status"],
   [[.vint 1, .vint 1, .vint 1, .vstr "Pending"]]⟩

/-- Food-listings frame for the claims-page examples. -/
def foodFixC1 : DFrame :=
  ⟨["Food_ID", "Food_Name", "Location", "Food_Type"],
   [[.vint 1, .vstr "Rice", .vstr "Adambury", .vstr "Vegetarian"]]⟩

/-- Receivers frame sharing the Rcv_ID column with claimsFixC1. -/
def receiversFixC1 : DFrame :=
  ⟨["Rcv_ID", "Name"], [[.vint 1, .vstr "Bea Shelter"]]⟩

/-! Theorems settling the claims. -/

/-- Claim C2 counterexample: with a live connection, a failing statement
makes execute_query propagate the driver exception; it returns neither
true nor false. -/
theorem c2_counterexample :
    execute_query (some ()) (ExecOutcome.raises "42000 syntax error") =
        Except.error "42000 syntax error" ∧
      execute_query (some ()) (ExecOutcome.raises "42000 syntax error") ≠ Except.ok true ∧
      execute_query (some ()) (ExecOutcome.raises "42000 syntax error") ≠ Except.ok false := by
  refine ⟨rfl, ?_, ?_⟩ <;> · intro h; exact Except.noConfusion h

/-- Claim C2 (amended): execute_query returns false exactly when no
connection is available; with a connection it returns true on success, and
any underlying failure propagates as an exception instead of being
converted to false. -/
theorem c2_execute_query_amended (outcome : ExecOutcome) (m : String) :
    execute_query none outcome = Except.ok false ∧
      execute_query (some ()) ExecOutcome.success = Except.ok true ∧
      execute_query (some ()) (ExecOutcome.raises m) = Except.error m :=
  ⟨rfl, rfl, rfl⟩

/-- Claim C3 counterexample: Create on the Claims table inserts nothing
(show_create_form has no Claims branch), so a subsequent fresh Read of
Claims returns no rows at all, whatever fields were submitted. -/
theorem c3_counterexample :
    show_create_form "Claims" dbEmpty 1 pfA rfA = dbEmpty ∧
      (show_read_table "Claims" (show_create_form "Claims" dbEmpty 1 pfA rfA) []).1 =
        TableData.claimRows [] := by
  refine ⟨?_, ?_⟩ <;> rfl

/-- Claim C3 (amended): for the Providers and Receivers tables, Create
inserts exactly the submitted fields, and a subsequent Read whose query
text is not already memoized returns a row whose fields equal the
submitted values; for Food_Listings_Dataset and Claims the Create
operation of the CRUD page performs no insert at all. -/
theorem c3_create_then_read (db : DB) (i : Int) (pf : ProviderFields) (rf : ReceiverFields) :
    ((show_read_table "Providers" (show_create_form "Providers" db i pf rf) []).1 =
        TableData.providerRows
          (db.providers ++ [⟨i, pf.name, pf.ptype, pf.address, pf.city, pf.contact⟩])) ∧
      (∃ p, p ∈ (show_create_form "Providers" db i pf rf).providers ∧
        p.name = pf.name ∧ p.ptype = pf.ptype ∧ p.address = pf.address ∧
        p.city = pf.city ∧ p.contact = pf.contact) ∧
      ((show_read_table "Receivers" (show_create_form "Receivers" db i pf rf) []).1 =
        TableData.receiverRows
          (db.receivers ++ [⟨i, rf.name, rf.rtype, rf.city, rf.contact⟩])) ∧
      (∃ r, r ∈ (show_create_form "Receivers" db i pf rf).receivers ∧
        r.name = rf.name ∧ r.rtype = rf.rtype ∧ r.city = rf.city ∧ r.contact = rf.contact) ∧
      (show_create_form "Food_Listings_Dataset" db i pf rf = db) ∧
      (show_create_form "Claims" db i pf rf = db) := by
  refine ⟨?_, ?_, ?_, ?_, ?_, ?_⟩
  · simp [show_read_table, load_data_memo, selectAll, show_create_form]
  · refine ⟨⟨i, pf.name, pf.ptype, pf.address, pf.city, pf.contact⟩, ?_, rfl, rfl, rfl, rfl, rfl⟩
    simp [show_create_form]
  · simp [show_read_table, load_data_memo, selectAll, show_create_form]
  · refine ⟨⟨i, rf.name, rf.rtype, rf.city, rf.contact⟩, ?_, rfl, rfl, rfl, rfl⟩
    simp [show_create_form]
  · simp [show_create_form]
  · simp [show_create_form]

/-- Claim C4 counterexample: an Update interaction on the Receivers table
changes nothing; the selected receiver row keeps all its old field values
regardless of the intended new ones. -/
theorem c4_counterexample :
    show_update_form "Receivers" dbR 1 ufNew = dbR ∧
      (show_update_form "Receivers" dbR 1 ufNew).receivers =
        [⟨1, "Old Name", "Charity", "Adambury", "555-0300"⟩] := by
  refine ⟨?_, ?_⟩ <;> rfl

/-- Claim C4 (amended): for the Providers table, Update rewrites exactly
the provider rows whose Provider_ID equals the selected value with the
submitted field values, keeps every other provider row as well as the
three other tables unchanged; for the three other tables the Update page
performs no change at all. -/
theorem c4_update_frame (db : DB) (selId : Int) (uf : ProviderFields) :
    (∀ p ∈ db.providers, p.provider_id ≠ selId →
        p ∈ (show_update_form "Providers" db selId uf).providers) ∧
      (∀ p ∈ db.providers, p.provider_id = selId →
        (⟨p.provider_id, uf.name, uf.ptype, uf.address, uf.city, uf.contact⟩ : Provider) ∈
          (show_update_form "Providers" db selId uf).providers) ∧
      ((show_update_form "Providers" db selId uf).providers.length = db.providers.length) ∧
      ((show_update_form "Providers" db selId uf).receivers = db.receivers) ∧
      ((show_update_form "Providers" db selId uf).listings = db.listings) ∧
      ((show_update_form "Providers" db selId uf).claims = db.claims) ∧
      (∀ t, t ≠ "Providers" → show_update_form t db selId uf = db) := by
  refine ⟨?_, ?_, ?_, ?_, ?_, ?_, ?_⟩
  · intro p hp hne
    simp only [show_update_form, if_pos rfl]
    exact List.mem_map.mpr ⟨p, hp, by simp [updateProviderRow, hne]⟩
  · intro p hp heq
    simp only [show_update_form, if_pos rfl]
    exact List.mem_map.mpr ⟨p, hp, by simp [updateProviderRow, heq]⟩
  · simp [show_update_form]
  · simp [show_update_form]
  · simp [show_update_form]
  · simp [show_update_form]
  · intro t ht
    simp [show_update_form, ht]

/-- Witness for claim C4: in a two-provider database, updating provider 1
keeps provider 2 untouched, rewrites provider 1 with the submitted fields,
and leaves the other tables and table names alone. -/
theorem c4_update_frame_witness :
    (⟨2, "Keep Name", "Grocery Store", "4 Pine St", "Brighton", "555-0401"⟩ : Provider) ∈
        (show_update_form "Providers" dbP 1 ufNew).providers ∧
      (⟨1, "New Name", "Supermarket", "2 Oak Ave", "Brighton", "555-0200"⟩ : Provider) ∈
        (show_update_form "Providers" dbP 1 ufNew).providers ∧
      (show_update_form "Providers" dbP 1 ufNew).receivers = dbP.receivers ∧
      show_update_form "Claims" dbP 1 ufNew = dbP := by
  have h := c4_update_frame dbP 1 ufNew
  refine ⟨?_, ?_, h.2.2.2.1, h.2.2.2.2.2.2 "Claims" (by decide)⟩
  · exact h.1 ⟨2, "Keep Name", "Grocery Store", "4 Pine St", "Brighton", "555-0401"⟩
      (by decide) (by decide)
  · exact h.2.1 ⟨1, "Old Name", "Restaurant", "3 Elm St", "Adambury", "555-0400"⟩
      (by decide) rfl

/-- Accumulating the quantities with foldl equals the sum of the mapped
quantity column. -/
theorem foldl_add_quantity (t : List FoodListing) (a : Int) :
    t.foldl (fun acc f => acc + f.quantity) a = a + (t.map FoodListing.quantity).sum := by
  induction t generalizing a with
  | nil => simp
  | cons x xs ih => simp [ih, add_assoc]

/-- Claim C5: report 5 is the single scalar summing the Quantity column
over all listing rows, and on the fixture with quantities 10, 5 and 20 it
reports 35. -/
theorem c5_report5_sum (fs : List FoodListing) (h : fs ≠ []) :
    report5 fs = some ((fs.map FoodListing.quantity).sum) ∧
      report5 fixtureListings = some 35 := by
  refine ⟨?_, by decide⟩
  match fs with
  | [] => exact absurd rfl h
  | a :: t => simp [report5, foldl_add_quantity]

/-- Witness for claim C5: the fixture is non-empty and reports 35. -/
theorem c5_report5_sum_witness :
    fixtureListings ≠ [] ∧ report5 fixtureListings = some 35 :=
  ⟨by decide, (c5_report5_sum fixtureListings (by decide)).2⟩

/-- Claim C7: on the empty Claims table report 10 is the empty result set;
no per-status row, and hence no division by the total count, is ever
produced. -/
theorem c7_report10_empty : report10 [] = [] := rfl

/-- Claim C8: two runs of report 1 in one session against an unchanged
database yield identical ordered output; the second run is served from the
memo cache and both equal the pure report of the database state. -/
theorem c8_report1_idempotent (ps : List Provider) (rs : List Receiver) :
    (runReport1Twice ps rs).1 = (runReport1Twice ps rs).2 ∧
      (runReport1Twice ps rs).1 = report1 ps rs :=
  ⟨rfl, rfl⟩

/-- Claim C9 counterexample: report 5 yields one row and a single column
named Total_Quantity_Available; the last column name contains Total, yet
no bar chart is drawn. -/
theorem c9_counterexample :
    nameContains "Total" "Total_Quantity_Available" = true ∧
      showsBarChart ["Total_Quantity_Available"] 1 = false := by
  refine ⟨?_, ?_⟩ <;> decide

/-- Claim C9 (amended): a bar chart is drawn for a report result exactly
when it has at least two columns, more than one row, and the name of its
last column contains Total or Count; every other result (including
single-column, single-row or empty results) gets no chart. -/
theorem c9_chart_policy (cols : List String) (nrows : Nat) :
    showsBarChart cols nrows = true ↔
      (2 ≤ cols.length ∧ 1 < nrows ∧
        (nameContains "Total" (cols.getLastD "") = true ∨
          nameContains "Count" (cols.getLastD "") = true)) := by
  unfold showsBarChart
  by_cases h0 : nrows = 0
  · simp [h0]
  · rw [if_neg h0]
    by_cases h2 : 2 ≤ cols.length ∧ 1 < nrows
    · rw [if_pos h2]
      simp [Bool.or_eq_true, h2.1, h2.2]
    · rw [if_neg h2]
      simp only [Bool.false_eq_true, false_iff]
      rintro ⟨ha, hb, -⟩
      exact h2 ⟨ha, hb⟩

/-- Claim C1: the receiver join key of the claims page is resolved by
trying Receiver_ID, then ReceiverID, then ReceiverId, each required in
both tables; failing those, the fallback picks a column shared by both
tables whose name ends in _ID; and when no key resolves, or when the
attempted fallback merge fails, the receiver join is skipped and the
unmerged claims rows are shown instead of the page failing. -/
theorem c1_receiver_join_resolution (claims food receivers : DFrame)
    (hc : claims.rows ≠ []) (hf : food.rows ≠ []) (hr : receivers.rows ≠ []) :
    (("Receiver_ID" ∈ claims.cols ∧ "Receiver_ID" ∈ receivers.cols) →
        resolveReceiverKey claims.cols receivers.cols = some "Receiver_ID") ∧
      (¬("Receiver_ID" ∈ claims.cols ∧ "Receiver_ID" ∈ receivers.cols) →
        ("ReceiverID" ∈ claims.cols ∧ "ReceiverID" ∈ receivers.cols) →
        resolveReceiverKey claims.cols receivers.cols = some "ReceiverID") ∧
      (¬("Receiver_ID" ∈ claims.cols ∧ "Receiver_ID" ∈ receivers.cols) →
        ¬("ReceiverID" ∈ claims.cols ∧ "ReceiverID" ∈ receivers.cols) →
        ("ReceiverId" ∈ claims.cols ∧ "ReceiverId" ∈ receivers.cols) →
        resolveReceiverKey claims.cols receivers.cols = some "ReceiverId") ∧
      (∀ c, fallbackKey claims.cols receivers.cols = some c →
        c ∈ claims.cols ∧ c ∈ receivers.cols ∧ endsWithID c = true) ∧
      (resolveReceiverKey claims.cols receivers.cols = none →
        fallbackKey claims.cols receivers.cols = none →
        show_claims claims food receivers = ClaimsView.table (foodMergeStep claims food)) ∧
      (resolveReceiverKey claims.cols receivers.cols = none →
        ∀ c, fallbackKey claims.cols receivers.cols = some c →
          show_claims claims food receivers = ClaimsView.rawFallback claims) := by
  have hguard : ¬(claims.rows = [] ∨ food.rows = [] ∨ receivers.rows = []) := by
    rintro (h | h | h)
    exacts [hc h, hf h, hr h]
  refine ⟨?_, ?_, ?_, ?_, ?_, ?_⟩
  · intro h1
    unfold resolveReceiverKey
    rw [if_pos h1]
  · intro h1 h2
    unfold resolveReceiverKey
    rw [if_neg h1, if_pos h2]
  · intro h1 h2 h3
    unfold resolveReceiverKey
    rw [if_neg h1, if_neg h2, if_pos h3]
  · intro c hfind
    have hp := List.find?_some hfind
    have hmemc := List.mem_of_find?_eq_some hfind
    rw [Bool.and_eq_true] at hp
    exact ⟨hmemc, of_decide_eq_true hp.1, hp.2⟩
  · intro hres hfb
    simp [show_claims, showClaimsBody, hguard, hres, hfb]
  · intro hres c hfb
    simp [show_claims, showClaimsBody, hguard, hres, hfb]

/-- Witness for claim C1: with the receiver identity column named Rcv_ID
no named key resolves, the fallback column is attempted, the merge fails,
and the raw claims rows are shown. -/
theorem c1_receiver_join_resolution_witness :
    show_claims claimsFixC1 foodFixC1 receiversFixC1 = ClaimsView.rawFallback claimsFixC1 :=
  (c1_receiver_join_resolution claimsFixC1 foodFixC1 receiversFixC1
      (by decide) (by decide) (by decide)).2.2.2.2.2 (by decide) "Rcv_ID" (by decide)

/-- One rounding at the second decimal place moves a rational by at most
1 / 200. -/
theorem abs_round2_sub (q : ℚ) : |round2 q - q| ≤ 1 / 200 := by
  have h : |q * 100 - round (q * 100)| ≤ 1 / 2 := abs_sub_round (q * 100)
  have e : round2 q - q = -(q * 100 - (round (q * 100) : ℚ)) / 100 := by
    unfold round2
    ring
  rw [e, abs_div, abs_neg]
  have h100 : |(100 : ℚ)| = 100 := by norm_num
  rw [h100]
  linarith

/-- Summing two pointwise-close maps keeps the totals within length times
the pointwise bound. -/
theorem abs_sum_map_sub_le {α : Type} (l : List α) (f g : α → ℚ) (c : ℚ)
    (h : ∀ s ∈ l, |g s - f s| ≤ c) :
    |(l.map g).sum - (l.map f).sum| ≤ l.length * c := by
  induction l with
  | nil => simp
  | cons a t ih =>
    have h1 : |g a - f a| ≤ c := h a (List.mem_cons_self a t)
    have h2 : |(t.map g).sum - (t.map f).sum| ≤ t.length * c :=
      ih fun s hs => h s (List.mem_cons_of_mem a hs)
    have habs := abs_add (g a - f a) ((t.map g).sum - (t.map f).sum)
    simp only [List.map_cons, List.sum_cons, List.length_cons]
    have e : g a + (t.map g).sum - (f a + (t.map f).sum) =
        g a - f a + ((t.map g).sum - (t.map f).sum) := by ring
    rw [e]
    push_cast
    calc |g a - f a + ((t.map g).sum - (t.map f).sum)|
        ≤ |g a - f a| + |(t.map g).sum - (t.map f).sum| := habs
      _ ≤ c + t.length * c := add_le_add h1 h2
      _ = (t.length + 1) * c := by ring

/-- The exact (unrounded) percentages of query 10 sum to 100 on any
non-empty status list. -/
theorem sum_exact_pct (l : List String) (hne : l ≠ []) :
    (l.dedup.map fun s => (l.count s : ℚ) * 100 / (l.length : ℚ)).sum = 100 := by
  have hlen0 : l.length ≠ 0 := by
    simpa [List.length_eq_zero] using hne
  have hlen : (l.length : ℚ) ≠ 0 := by exact_mod_cast hlen0
  have hsum : (l.dedup.map fun s => ((l.count s : ℚ))).sum = (l.length : ℚ) := by
    rw [← List.sum_map_count_dedup_eq_length l]
    rw [Nat.cast_list_sum, List.map_map]
    rfl
  calc (l.dedup.map fun s => (l.count s : ℚ) * 100 / (l.length : ℚ)).sum
      = (l.dedup.map fun s => ((l.count s : ℚ))).sum * 100 / (l.length : ℚ) := by
        induction l.dedup with
        | nil => simp
        | cons x t ih => simp [ih, add_mul, add_div]
    _ = (l.length : ℚ) * 100 / (l.length : ℚ) := by rw [hsum]
    _ = 100 := by
        field_simp

/-- Claim C6: on a non-empty claims table, report 10 yields one row per
distinct status carrying that status, its claim count and its percentage
of all claims rounded to two decimals, and the rounded percentages sum to
100 up to at most 1 / 200 of rounding error per status group. -/
theorem c6_report10_distribution (cs : List Claim) (h : cs ≠ []) :
    ((report10 cs).map fun r => r.1) = (cs.map Claim.status).dedup ∧
      (∀ r ∈ report10 cs,
        r.2.1 = (cs.map Claim.status).count r.1 ∧
          r.2.2 = round2 (((cs.map Claim.status).count r.1 : ℚ) * 100 / (cs.length : ℚ))) ∧
      |((report10 cs).map fun r => r.2.2).sum - 100| ≤
        ((cs.map Claim.status).dedup.length : ℚ) / 200 := by
  have hl : cs.map Claim.status ≠ [] := by
    intro hm
    exact h (List.map_eq_nil_iff.mp hm)
  refine ⟨?_, ?_, ?_⟩
  · unfold report10
    rw [List.map_map]
    show (List.map Claim.status cs).dedup.map (fun s => s) = (List.map Claim.status cs).dedup
    exact List.map_id _
  · intro r hr
    simp only [report10, List.mem_map] at hr
    obtain ⟨s, hs, rfl⟩ := hr
    exact ⟨rfl, rfl⟩
  · have hmap : ((report10 cs).map fun r => r.2.2) =
        (cs.map Claim.status).dedup.map
          fun s => round2 (((cs.map Claim.status).count s : ℚ) * 100 / (cs.length : ℚ)) := by
      simp [report10, List.map_map]
    rw [hmap]
    have hlen : (cs.length : ℚ) = ((cs.map Claim.status).length : ℚ) := by
      rw [List.length_map]
    rw [hlen]
    have hexact := sum_exact_pct (cs.map Claim.status) hl
    have hbound := abs_sum_map_sub_le (cs.map Claim.status).dedup
      (fun s => ((cs.map Claim.status).count s : ℚ) * 100 / ((cs.map Claim.status).length : ℚ))
      (fun s => round2
        (((cs.map Claim.status).count s : ℚ) * 100 / ((cs.map Claim.status).length : ℚ)))
      (1 / 200) (fun s _ => abs_round2_sub _)
    rw [hexact] at hbound
    calc |((cs.map Claim.status).dedup.map
          fun s => round2
            (((cs.map Claim.status).count s : ℚ) * 100
              / ((cs.map Claim.status).length : ℚ))).sum - 100|
        ≤ (cs.map Claim.status).dedup.length * (1 / 200) := hbound
      _ = ((cs.map Claim.status).dedup.length : ℚ) / 200 := by ring

/-- Witness for claim C6: the three-claim fixture is non-empty and its
rounded percentages sum to 100 within the stated bound. -/
theorem c6_report10_distribution_witness :
    fixtureClaims ≠ [] ∧
      |((report10 fixtureClaims).map fun r => r.2.2).sum - 100| ≤
        ((fixtureClaims.map Claim.status).dedup.length : ℚ) / 200 :=
  ⟨by decide, (c6_report10_distribution fixtureClaims (by decide)).2.2⟩

/-- Claim C10: the claims page produces the no-data warning (and performs
no merge) exactly when at least one of the Claims, FoodListing and
Receivers tables is empty. -/
theorem c10_claims_empty_guard (claims food receivers : DFrame) :
    show_claims claims food receivers = ClaimsView.noData ↔
      (claims.rows = [] ∨ food.rows = [] ∨ receivers.rows = []) := by
  by_cases h : claims.rows = [] ∨ food.rows = [] ∨ receivers.rows = []
  · simp [show_claims, h]
  · simp only [show_claims, if_neg h]
    cases hb : showClaimsBody claims food receivers with
    | ok df => simp [h]
    | error e => simp [h]

end FoodWastage
